import Mathlib

/-!
Shallow embedding of `src/run_asa/Internal/custom_ddg_production.py`, a tiered
DuckDuckGo search client.  The module dispatches a text search through four
tiers in order: a PRIMP impersonated-HTTP client, an optional Selenium
real-browser tier, the `ddgs` structured API client (with retry), and a plain
`requests` HTML scrape.

External capabilities (HTTP transport, HTML parsing via BeautifulSoup, the
Selenium driver, the `ddgs` library, `urllib` redirect-URL decoding) are
modelled as oracles/parameters: each tier's observable interaction with its
mechanism is an explicit outcome value, and pure in-repo logic (parameter
mapping, truncation, id assignment, body formatting, environment mutation,
retry/backoff, tier sequencing) is translated directly from the source.
-/

deriving instance DecidableEq for Except

/-- The common result record built by the tiers (Python dict with keys
`id`, `title`, `href`, `body`). -/
structure SearchResult where
  id : Nat
  title : String
  href : String
  body : String
deriving Repr, DecidableEq

/-- Exception classes relevant to the module: Selenium `WebDriverException`,
`ddgs.exceptions.DDGSException`, `requests` `HTTPError` (from
`raise_for_status`), and any other exception class. -/
inductive Exc where
  | webDriver (msg : String)
  | ddgsExc (msg : String)
  | httpStatus (code : Nat)
  | other (msg : String)
deriving Repr, DecidableEq

/-- The process environment restricted to the two variables the module reads
and writes: `HTTP_PROXY` and `HTTPS_PROXY`. -/
structure Env where
  httpProxy : Option String
  httpsProxy : Option String
deriving Repr, DecidableEq

/-- A result anchor extracted from HTML (`a.result__a`): its `href` attribute
and its text (`get_text(strip=True)`). -/
structure Anchor where
  href : String
  text : String
deriving Repr, DecidableEq

/-- `INTERNAL_MAX_RETURN = 10` (line 33). -/
def INTERNAL_MAX_RETURN : Nat := 10

/-- `_DEFAULT_UA` (lines 35-39). -/
def _DEFAULT_UA : String :=
  "Mozilla/5.0 (Windows NT 10.0; Win64; x64) AppleWebKit/537.36 (KHTML, like Gecko) Chrome/125.0 Safari/537.36"

/-- `dict.setdefault k v` on an association list: adds `(k, v)` only when no
binding for `k` exists. -/
def setdefaultAssoc (h : List (String × String)) (k v : String) : List (String × String) :=
  if h.any (fun p => p.1 = k) then h else h ++ [(k, v)]

/-- `os.environ.setdefault("HTTP_PROXY", v)`. -/
def Env.setdefaultHttp (env : Env) (v : String) : Env :=
  { env with httpProxy := some (env.httpProxy.getD v) }

/-- `os.environ.setdefault("HTTPS_PROXY", v)`. -/
def Env.setdefaultHttps (env : Env) (v : String) : Env :=
  { env with httpsProxy := some (env.httpsProxy.getD v) }

/-- `os.environ.update(saved_env)` against a snapshot holding the popped
values (a key absent from the snapshot is left as it currently is). -/
def restoreEnv (env : Env) (savedHttp savedHttps : Option String) : Env :=
  { httpProxy := match savedHttp with
      | some v => some v
      | none => env.httpProxy
  , httpsProxy := match savedHttps with
      | some v => some v
      | none => env.httpsProxy }

-- ────────────────────────────────────────────────────────────────────
-- Tier 0 — PRIMP impersonated-HTTP client (`_search_text` lines 256-337)
-- ────────────────────────────────────────────────────────────────────

/-- The safesearch → `kp` mapping table of line 272 (input already lowered). -/
def safesearchKp (ss : String) : String :=
  if ss = "off" then "-1"
  else if ss = "moderate" then "0"
  else if ss = "safe" then "1"
  else if ss = "strict" then "1"
  else "0"

/-- The `_params` dict built on lines 267-278: `q` always, then `kp`, `df`,
`kl` when `safesearch` / `time` / `region` are set. -/
def primpParams (query : String) (safesearch time region : Option String) :
    List (String × String) :=
  [("q", query)]
  ++ (match safesearch with
      | some ss => [("kp", safesearchKp ss.toLower)]
      | none => [])
  ++ (match time with
      | some t => [("df", t)]
      | none => [])
  ++ (match region with
      | some r => [("kl", r)]
      | none => [])

/-- Observable outcome of the PRIMP tier's interaction with its client: either
some exception was raised somewhere inside the `try` block, or a response came
back with a status code, a body text, and the anchors / snippets BeautifulSoup
extracts from that body. -/
inductive PrimpOutcome where
  | raise (e : Exc)
  | resp (status : Nat) (text : String) (links : List Anchor) (snips : List String)
deriving Repr, DecidableEq

/-- `_limit = int(max_results or INTERNAL_MAX_RETURN)` (line 307): a falsy
(zero) `max_results` is replaced by the internal ceiling. -/
def primpLimit (max_results : Nat) : Nat :=
  if max_results = 0 then INTERNAL_MAX_RETURN else max_results

/-- The entry construction of lines 308-325: `enumerate(_links[:_limit], 1)`,
snippet `_snips[i-1]` when present else empty, delimiter-wrapped body holding
the snippet and the decoded (`uddg`-unwrapped) URL.  `decode` stands for
`unquote(parse_qs(urlparse(raw).query).get("uddg", [raw])[0])`. -/
def primpExtract (decode : String → String) (links : List Anchor)
    (snips : List String) (limit : Nat) : List SearchResult :=
  (List.enumFrom 1 (links.take limit)).map fun p =>
    { id := p.1
    , title := p.2.text
    , href := p.2.href
    , body := "__START_OF_SOURCE " ++ toString p.1 ++ "__ <CONTENT> "
        ++ snips.getD (p.1 - 1) "" ++ " </CONTENT> <URL> " ++ decode p.2.href
        ++ " </URL> __END_OF_SOURCE " ++ toString p.1 ++ "__" }

/-- The whole PRIMP tier (lines 264-337): `some out` when it returns a
non-empty list, `none` when it falls through — on a non-2xx status, an empty
body, zero extracted entries, or ANY exception (`except Exception`,
line 336). -/
def primpTier (decode : String → String) (o : PrimpOutcome) (max_results : Nat) :
    Option (List SearchResult) :=
  match o with
  | .raise _ => none
  | .resp status text links snips =>
    if 200 ≤ status ∧ status < 300 ∧ text ≠ "" then
      let out := primpExtract decode links snips (primpLimit max_results)
      if out = [] then none else some out
    else none

-- ────────────────────────────────────────────────────────────────────
-- Browser tier — `_new_driver` (lines 84-125) and `_browser_search` (128-190)
-- ────────────────────────────────────────────────────────────────────

/-- The Selenium options object: the list of command-line arguments added. -/
structure DriverOpts where
  args : List String
deriving Repr, DecidableEq

/-- Options built on lines 93-104.  NOTE: `--headless` is added
unconditionally (line 94); the `headless` parameter is never consulted. -/
def driverOpts (proxy : Option String) (headless : Bool) : DriverOpts :=
  { args := ["--headless", "--disable-gpu", "--disable-dev-shm-usage", "--no-sandbox"]
      ++ (match proxy with
          | some p => ["--proxy-server=" ++ p]
          | none => []) }

/-- Outcome of `webdriver.Chrome(options=opts)`: created, or raised. -/
inductive DriverOutcome where
  | ok
  | raise (e : Exc)
deriving Repr, DecidableEq

/-- `_new_driver` (lines 84-125): builds options, pops `HTTP_PROXY` /
`HTTPS_PROXY` when `bypass_proxy_for_driver` (saving popped values), attempts
driver creation, and in the `finally` block re-applies the saved values.
Header injection through CDP (lines 118-123) is wrapped in a blanket
try/except and has no observable effect on this state.  Returns the driver
options (standing for the driver) or the creation exception, together with
the environment after the `finally` restore. -/
def _new_driver (proxy : Option String) (headless bypass_proxy_for_driver : Bool)
    (creation : DriverOutcome) (env : Env) : Except Exc DriverOpts × Env :=
  let opts := driverOpts proxy headless
  let savedHttp := if bypass_proxy_for_driver then env.httpProxy else none
  let savedHttps := if bypass_proxy_for_driver then env.httpsProxy else none
  let cleared : Env := if bypass_proxy_for_driver then ⟨none, none⟩ else env
  let envAfter := restoreEnv cleared savedHttp savedHttps
  match creation with
  | .ok => (.ok opts, envAfter)
  | .raise e => (.error e, envAfter)

/-- Outcome of navigation + `WebDriverWait` + page parsing in
`_browser_search`: either some exception (e.g. `TimeoutException`, a
`WebDriverException` subclass) or the rendered page's anchors and snippets. -/
inductive PageOutcome where
  | raise (e : Exc)
  | page (links : List Anchor) (snips : List String)
deriving Repr, DecidableEq

/-- The return-block of `_browser_search` (lines 158-186): truncates anchors
and snippets to `max_results` — which was overwritten with
`INTERNAL_MAX_RETURN` on line 140 — and builds entries with `id = idx + 1`
and the delimiter-wrapped body (note the double space before the closing
index, line 180). -/
def browserExtract (decode : String → String) (links : List Anchor)
    (snips : List String) (mr : Nat) : List SearchResult :=
  (List.enum (links.take mr)).map fun p =>
    { id := p.1 + 1
    , title := p.2.text
    , href := p.2.href
    , body := "__START_OF_SOURCE " ++ toString (p.1 + 1) ++ "__ <CONTENT> "
        ++ (snips.take mr).getD p.1 "" ++ " </CONTENT> <URL> " ++ decode p.2.href
        ++ " </URL> __END_OF_SOURCE  " ++ toString (p.1 + 1) ++ "__" }

/-- Result of `_browser_search` viewed without the environment side effect:
driver creation failure or page failure raise; otherwise the extraction runs
with the hardcoded `INTERNAL_MAX_RETURN` cap. -/
def browserResult (decode : String → String) (creation : DriverOutcome)
    (page : PageOutcome) : Except Exc (List SearchResult) :=
  match creation with
  | .raise e => .error e
  | .ok =>
    match page with
    | .raise e => .error e
    | .page links snips => .ok (browserExtract decode links snips INTERNAL_MAX_RETURN)

/-- `_browser_search` (lines 128-190).  The `max_results` parameter is
accepted and immediately overwritten (`max_results = int(INTERNAL_MAX_RETURN)`,
line 140), so it is unused.  `driver.quit()` in the `finally` block is wrapped
in `contextlib.suppress` and has no observable effect here. -/
def _browser_search (decode : String → String) (proxy : Option String)
    (headless bypass_proxy_for_driver : Bool) (creation : DriverOutcome)
    (page : PageOutcome) (max_results : Nat) (env : Env) :
    Except Exc (List SearchResult) × Env :=
  match _new_driver proxy headless bypass_proxy_for_driver creation env with
  | (.error e, env2) => (.error e, env2)
  | (.ok _d, env2) =>
    match page with
    | .raise e => (.error e, env2)
    | .page links snips =>
      (.ok (browserExtract decode links snips INTERNAL_MAX_RETURN), env2)

-- ────────────────────────────────────────────────────────────────────
-- ddgs tier — `_with_ddgs` (lines 51-78)
-- ────────────────────────────────────────────────────────────────────

/-- Outcome of one `fn(client)` invocation inside the retry loop: a value, or
a raised exception (caught only when it is a `DDGSException`). -/
inductive DdgsAttempt (α : Type) where
  | ok (v : α)
  | raise (e : Exc)
deriving Repr, DecidableEq

/-- Execution trace of the retry loop of `_with_ddgs` (lines 67-78): the
attempt numbers that ran, the sleeps performed between attempts, and the final
outcome (`none` would be Python's implicit `return None` after an exhausted
`for` loop, unreachable with the fixed `retries = 3`). -/
structure DdgsTrace (α : Type) where
  attemptsMade : List Nat
  sleeps : List ℚ
  result : Option (Except Exc α)
deriving Repr, DecidableEq

/-- The retry loop body: `for attempt in range(1, retries + 1)` with
`except DDGSException` only; on the last attempt the exception is re-raised,
otherwise `time.sleep(sleep)` runs and `sleep *= backoff`. -/
def withDdgsGo {α : Type} (fn : Nat → DdgsAttempt α) (backoff : ℚ) (retries : Nat) :
    List Nat → ℚ → List Nat → List ℚ → DdgsTrace α
  | [], _, att, sl => ⟨att.reverse, sl.reverse, none⟩
  | a :: rest, sleep, att, sl =>
    match fn a with
    | .ok v => ⟨(a :: att).reverse, sl.reverse, some (.ok v)⟩
    | .raise (.ddgsExc m) =>
      if a = retries then ⟨(a :: att).reverse, sl.reverse, some (.error (.ddgsExc m))⟩
      else withDdgsGo fn backoff retries rest (sleep * backoff) (a :: att) (sleep :: sl)
    | .raise e => ⟨(a :: att).reverse, sl.reverse, some (.error e)⟩

/-- The loop of `_with_ddgs` at its fixed configuration: `retries = 3`,
`sleep = 0.01`, `backoff = 1.5`. -/
def ddgsTrace {α : Type} (fn : Nat → DdgsAttempt α) : DdgsTrace α :=
  withDdgsGo fn (1.5 : ℚ) 3 (List.range' 1 3) (0.01 : ℚ) [] []

/-- Full observable state of a `_with_ddgs` call. -/
structure WithDdgsRun (α : Type) where
  usedProxy : Option String
  usedHeaders : List (String × String)
  trace : DdgsTrace α
  env : Env
deriving Repr

/-- `_with_ddgs` (lines 51-78): resolves the proxy from the argument or the
environment, defaults the `User-Agent` header, exports the proxy to
`HTTP_PROXY` / `HTTPS_PROXY` with `os.environ.setdefault`, then runs the
retry loop. -/
def _with_ddgs {α : Type} (proxy : Option String)
    (headers : Option (List (String × String))) (fn : Nat → DdgsAttempt α)
    (env : Env) : WithDdgsRun α :=
  let p := match proxy with
    | some v => some v
    | none =>
      match env.httpProxy with
      | some v => some v
      | none => env.httpsProxy
  let hs := setdefaultAssoc (headers.getD []) "User-Agent" _DEFAULT_UA
  let env2 := match p with
    | some v => (env.setdefaultHttp v).setdefaultHttps v
    | none => env
  ⟨p, hs, ddgsTrace fn, env2⟩

-- ────────────────────────────────────────────────────────────────────
-- Scrape tier — `_requests_scrape` (lines 196-225)
-- ────────────────────────────────────────────────────────────────────

/-- The single `requests.post` response: its final status code and the
anchors BeautifulSoup extracts from its body. -/
structure ScrapeResp where
  status : Nat
  links : List Anchor
deriving Repr, DecidableEq

/-- `Response.raise_for_status()` of the `requests` library: raises
`HTTPError` exactly for 4xx and 5xx status codes. -/
def raise_for_status (status : Nat) : Option Exc :=
  if 400 ≤ status ∧ status < 600 then some (.httpStatus status) else none

/-- `_requests_scrape` (lines 196-225): one POST, `raise_for_status`, then
`enumerate(soup.select("a.result__a")[:max_results], 1)` into entries with
empty `body`. -/
def _requests_scrape (resp : ScrapeResp) (max_results : Nat) :
    Except Exc (List SearchResult) :=
  match raise_for_status resp.status with
  | some e => .error e
  | none =>
    .ok ((List.enumFrom 1 (resp.links.take max_results)).map fun p =>
      { id := p.1, title := p.2.text, href := p.2.href, body := "" })

-- ────────────────────────────────────────────────────────────────────
-- Orchestrator — `_search_text` (lines 251-383)
-- ────────────────────────────────────────────────────────────────────

/-- The wrapper's configuration fields used by `_search_text`. -/
structure Config where
  proxy : Option String
  headers : Option (List (String × String))
  use_browser : Bool
  headless : Bool
  bypass_proxy_for_driver : Bool
  region : Option String
  safesearch : Option String
  time : Option String
deriving Repr

/-- The four tiers, in the source's dispatch order. -/
inductive Tier where
  | primp
  | browser
  | ddgs
  | scrape
deriving Repr, DecidableEq

/-- The fixed tier order of `_search_text`: the browser tier participates only
when `use_browser` is set. -/
def tierOrder (use_browser : Bool) : List Tier :=
  if use_browser then [.primp, .browser, .ddgs, .scrape] else [.primp, .ddgs, .scrape]

/-- The external-mechanism outcomes a single `_search_text` call consumes. -/
structure TierOracles where
  decode : String → String
  primp : PrimpOutcome
  creation : DriverOutcome
  page : PageOutcome
  ddgs : Nat → DdgsAttempt (List SearchResult)
  scrape : ScrapeResp

/-- Observable state of one `_search_text` call: the tiers attempted in
order, the returned value (`.ok none` is Python's `None`, unreachable), and
the final environment. -/
structure SearchRun where
  attempts : List Tier
  result : Except Exc (Option (List SearchResult))
  env : Env
deriving Repr, DecidableEq

/-- Tiers 2 (ddgs) and 3 (scrape) of `_search_text` (lines 359-383): the ddgs
tier is attempted with `except DDGSException` around it; on that failure the
scrape runs unguarded as the last resort. -/
def searchTextFrom2 (cfg : Config) (o : TierOracles) (max_results : Nat)
    (attempts : List Tier) (env : Env) : SearchRun :=
  let w := _with_ddgs cfg.proxy cfg.headers o.ddgs env
  match w.trace.result with
  | some (.ok v) => ⟨attempts ++ [.ddgs], .ok (some v), w.env⟩
  | some (.error (.ddgsExc _)) =>
    match _requests_scrape o.scrape max_results with
    | .ok l => ⟨attempts ++ [.ddgs, .scrape], .ok (some l), w.env⟩
    | .error e => ⟨attempts ++ [.ddgs, .scrape], .error e, w.env⟩
  | some (.error e) => ⟨attempts ++ [.ddgs], .error e, w.env⟩
  | none => ⟨attempts ++ [.ddgs], .ok none, w.env⟩

/-- `_search_text` (lines 251-383): PRIMP tier first (all exceptions caught,
empty result falls through); the Selenium tier only when `use_browser`, with
`except WebDriverException` only; then the ddgs tier; then the raw scrape. -/
def _search_text (cfg : Config) (o : TierOracles) (max_results : Nat)
    (env : Env) : SearchRun :=
  match primpTier o.decode o.primp max_results with
  | some out => ⟨[.primp], .ok (some out), env⟩
  | none =>
    if cfg.use_browser then
      match _browser_search o.decode cfg.proxy cfg.headless
          cfg.bypass_proxy_for_driver o.creation o.page max_results env with
      | (.ok out, env2) => ⟨[.primp, .browser], .ok (some out), env2⟩
      | (.error (.webDriver _), env2) =>
        searchTextFrom2 cfg o max_results [.primp, .browser] env2
      | (.error e, env2) => ⟨[.primp, .browser], .error e, env2⟩
    else
      searchTextFrom2 cfg o max_results [.primp] env

/-- The list a tier would return on its own in the given call (used to state
that the orchestrator's output is exactly one tier's output, never a merge). -/
def tierStandalone (o : TierOracles) (max_results : Nat) : Tier → Option (List SearchResult)
  | .primp => primpTier o.decode o.primp max_results
  | .browser => (browserResult o.decode o.creation o.page).toOption
  | .ddgs =>
    match (ddgsTrace o.ddgs).result with
    | some (.ok v) => some v
    | _ => none
  | .scrape => (_requests_scrape o.scrape max_results).toOption

/-- id contiguity: the `id` fields are exactly `1, 2, ..., length`. -/
def idsContiguous (l : List SearchResult) : Prop :=
  l.map SearchResult.id = List.range' 1 l.length

-- ────────────────────────────────────────────────────────────────────
-- Concrete instantiation data (inputs of the closed evaluation theorems)
-- ────────────────────────────────────────────────────────────────────

/-- A stand-in for the `uddg` redirect decoder on hrefs that carry no
redirect wrapper (the decoder returns the raw href unchanged). -/
def decodeId : String → String := fun s => s

def env0 : Env := ⟨none, none⟩

def envP : Env := ⟨some "http://proxy.local:3128", some "http://proxy.local:3129"⟩

def anchors3 : List Anchor := [⟨"u1", "t1"⟩, ⟨"u2", "t2"⟩, ⟨"u3", "t3"⟩]

def anchors12 : List Anchor := List.replicate 12 ⟨"https://example.com", "Example"⟩

def cfgNoBrowser : Config := ⟨none, none, false, true, true, none, none, none⟩

def cfgBrowser : Config := ⟨none, none, true, true, true, none, none, none⟩

/-- PRIMP tier succeeds with one anchor and one snippet. -/
def oW1 : TierOracles :=
  ⟨decodeId, .resp 200 "<html>" [⟨"u1", "t1"⟩] ["s1"], .ok, .page [] [],
    fun _ => .raise (.ddgsExc "blocked"), ⟨200, []⟩⟩

def lW1 : List SearchResult :=
  [⟨1, "t1", "u1",
    "__START_OF_SOURCE 1__ <CONTENT> s1 </CONTENT> <URL> u1 </URL> __END_OF_SOURCE 1__"⟩]

def recsW2 : List SearchResult := [⟨1, "t", "h", "b"⟩]

/-- PRIMP tier raises a non-tier-specific exception; the ddgs tier succeeds. -/
def oW2 : TierOracles :=
  ⟨decodeId, .raise (.other "ValueError"), .ok, .page [] [],
    fun _ => .ok recsW2, ⟨200, []⟩⟩

/-- PRIMP tier raises; driver creation raises a non-WebDriver exception. -/
def oW2b : TierOracles :=
  ⟨decodeId, .raise (.other "ValueError"), .raise (.other "TypeError"), .page [] [],
    fun _ => .ok recsW2, ⟨200, []⟩⟩

/-- PRIMP tier falls through on a 403; the ddgs client raises a
non-DDGSException on the first attempt. -/
def oW2c : TierOracles :=
  ⟨decodeId, .resp 403 "x" [] [], .ok, .page [] [],
    fun _ => .raise (.other "KeyError"), ⟨200, []⟩⟩

/-- A ddgs client whose every attempt raises a DDGSException. -/
def fnW3 : Nat → DdgsAttempt (List SearchResult) := fun _ => .raise (.ddgsExc "Ratelimit")

def fnW7 : Nat → DdgsAttempt (List SearchResult) := fun _ => .ok []

def oW4 : TierOracles :=
  ⟨decodeId, .resp 200 "<html>" anchors3 [], .ok, .page anchors3 [],
    fun _ => .raise (.ddgsExc "blocked"), ⟨200, anchors3⟩⟩

def lW4 : List SearchResult := [⟨1, "t1", "u1", ""⟩, ⟨2, "t2", "u2", ""⟩]

/-- PRIMP tier succeeds with two anchors and two snippets. -/
def oW5 : TierOracles :=
  ⟨decodeId, .resp 200 "<html>" [⟨"u1", "t1"⟩, ⟨"u2", "t2"⟩] ["s1", "s2"], .ok, .page [] [],
    fun _ => .raise (.ddgsExc "blocked"), ⟨200, []⟩⟩

def lW5 : List SearchResult :=
  [⟨1, "t1", "u1",
    "__START_OF_SOURCE 1__ <CONTENT> s1 </CONTENT> <URL> u1 </URL> __END_OF_SOURCE 1__"⟩,
   ⟨2, "t2", "u2",
    "__START_OF_SOURCE 2__ <CONTENT> s2 </CONTENT> <URL> u2 </URL> __END_OF_SOURCE 2__"⟩]

/-- PRIMP falls through on a 403, the ddgs tier exhausts its retries, and the
final scrape gets a 500. -/
def oW8 : TierOracles :=
  ⟨decodeId, .resp 403 "x" [] [], .ok, .page [] [],
    fun _ => .raise (.ddgsExc "Ratelimit"), ⟨500, []⟩⟩

-- ────────────────────────────────────────────────────────────────────
-- Helper lemmas
-- ────────────────────────────────────────────────────────────────────

theorem with_ddgs_trace {α : Type} (p : Option String)
    (h : Option (List (String × String))) (fn : Nat → DdgsAttempt α) (env : Env) :
    (_with_ddgs p h fn env).trace = ddgsTrace fn := rfl

theorem new_driver_env (proxy : Option String) (hl bp : Bool)
    (c : DriverOutcome) (env : Env) :
    (_new_driver proxy hl bp c env).2 = env := by
  rcases env with ⟨hp, hps⟩
  cases c <;> cases bp <;> cases hp <;> cases hps <;>
    simp [_new_driver, restoreEnv]

theorem browser_search_eq (decode : String → String) (proxy : Option String)
    (hl bp : Bool) (c : DriverOutcome) (pg : PageOutcome) (mr : Nat) (env : Env) :
    _browser_search decode proxy hl bp c pg mr env = (browserResult decode c pg, env) := by
  rcases env with ⟨hp, hps⟩
  cases c <;> cases pg <;> cases bp <;> cases hp <;> cases hps <;>
    simp [_browser_search, _new_driver, browserResult, restoreEnv]

theorem ids_enumFrom_map (l : List Anchor) (f : Nat × Anchor → SearchResult)
    (hf : ∀ p, (f p).id = p.1) :
    ((List.enumFrom 1 l).map f).map SearchResult.id = List.range' 1 l.length := by
  rw [List.map_map]
  have : SearchResult.id ∘ f = Prod.fst := funext fun p => hf p
  rw [this, List.enumFrom_map_fst]

theorem ids_enum_map (l : List Anchor) (f : Nat × Anchor → SearchResult)
    (hf : ∀ p, (f p).id = p.1 + 1) :
    ((List.enum l).map f).map SearchResult.id = List.range' 1 l.length := by
  rw [List.map_map]
  have h1 : SearchResult.id ∘ f = (fun p => p.1 + 1) := funext fun p => hf p
  rw [h1]
  have h2 : ∀ (s : Nat) (t : List Anchor),
      (List.enumFrom s t).map (fun p => p.1 + 1) = List.range' (s + 1) t.length := by
    intro s t
    induction t generalizing s with
    | nil => rfl
    | cons a t ih => simp [List.enumFrom, List.range', ih]
  exact h2 0 l

theorem primpExtract_ids (decode : String → String) (links : List Anchor)
    (snips : List String) (limit : Nat) :
    idsContiguous (primpExtract decode links snips limit) := by
  unfold idsContiguous primpExtract
  rw [List.length_map, List.enumFrom_length]
  exact ids_enumFrom_map _ _ (fun p => rfl)

theorem browserExtract_ids (decode : String → String) (links : List Anchor)
    (snips : List String) (mr : Nat) :
    idsContiguous (browserExtract decode links snips mr) := by
  unfold idsContiguous browserExtract
  rw [List.length_map, List.enum_length]
  exact ids_enum_map _ _ (fun p => rfl)

theorem scrape_ids (resp : ScrapeResp) (n : Nat) (l : List SearchResult)
    (h : _requests_scrape resp n = .ok l) : idsContiguous l := by
  unfold _requests_scrape at h
  rcases hs : raise_for_status resp.status with _ | e <;> rw [hs] at h
  · cases h
    unfold idsContiguous
    rw [List.length_map, List.enumFrom_length]
    exact ids_enumFrom_map _ _ (fun p => rfl)
  · cases h

theorem primpTier_some (decode : String → String) (o : PrimpOutcome) (n : Nat)
    (l : List SearchResult) (h : primpTier decode o n = some l) :
    ∃ status text links snips, o = .resp status text links snips
      ∧ l = primpExtract decode links snips (primpLimit n) := by
  rcases o with e | ⟨status, text, links, snips⟩
  · cases h
  · refine ⟨status, text, links, snips, rfl, ?_⟩
    simp only [primpTier] at h
    by_cases hc : 200 ≤ status ∧ status < 300 ∧ text ≠ ""
    · rw [if_pos hc] at h
      by_cases he : primpExtract decode links snips (primpLimit n) = []
      · rw [if_pos he] at h; cases h
      · rw [if_neg he] at h
        exact (Option.some_inj.mp h).symm
    · rw [if_neg hc] at h; cases h

theorem ddgsTrace_shape {α : Type} (fn : Nat → DdgsAttempt α) :
    (∃ v, fn 1 = .ok v ∧ ddgsTrace fn = ⟨[1], [], some (.ok v)⟩)
  ∨ (∃ e, fn 1 = .raise e ∧ (∀ m, e ≠ .ddgsExc m)
      ∧ ddgsTrace fn = ⟨[1], [], some (.error e)⟩)
  ∨ (∃ m₁, fn 1 = .raise (.ddgsExc m₁)
      ∧ ((∃ v, fn 2 = .ok v ∧ ddgsTrace fn = ⟨[1, 2], [(0.01 : ℚ)], some (.ok v)⟩)
        ∨ (∃ e, fn 2 = .raise e ∧ (∀ m, e ≠ .ddgsExc m)
            ∧ ddgsTrace fn = ⟨[1, 2], [(0.01 : ℚ)], some (.error e)⟩)
        ∨ (∃ m₂, fn 2 = .raise (.ddgsExc m₂)
            ∧ ((∃ v, fn 3 = .ok v
                  ∧ ddgsTrace fn = ⟨[1, 2, 3], [(0.01 : ℚ), (0.01 : ℚ) * 1.5], some (.ok v)⟩)
              ∨ (∃ e, fn 3 = .raise e ∧ (∀ m, e ≠ .ddgsExc m)
                  ∧ ddgsTrace fn = ⟨[1, 2, 3], [(0.01 : ℚ), (0.01 : ℚ) * 1.5], some (.error e)⟩)
              ∨ (∃ m₃, fn 3 = .raise (.ddgsExc m₃)
                  ∧ ddgsTrace fn
                      = ⟨[1, 2, 3], [(0.01 : ℚ), (0.01 : ℚ) * 1.5],
                          some (.error (.ddgsExc m₃))⟩))))) := by
  have hr : List.range' 1 3 = [1, 2, 3] := rfl
  rcases h1 : fn 1 with v1 | e1
  · exact Or.inl ⟨v1, rfl, by simp [ddgsTrace, hr, withDdgsGo, h1]⟩
  · rcases e1 with m | m1 | c | m
    · exact Or.inr (Or.inl ⟨_, rfl, (fun m2 h => by cases h),
        by simp [ddgsTrace, hr, withDdgsGo, h1]⟩)
    · refine Or.inr (Or.inr ⟨m1, rfl, ?_⟩)
      rcases h2 : fn 2 with v2 | e2
      · exact Or.inl ⟨v2, rfl, by simp [ddgsTrace, hr, withDdgsGo, h1, h2]⟩
      · rcases e2 with m | m2 | c | m
        · exact Or.inr (Or.inl ⟨_, rfl, (fun m2 h => by cases h),
            by simp [ddgsTrace, hr, withDdgsGo, h1, h2]⟩)
        · refine Or.inr (Or.inr ⟨m2, rfl, ?_⟩)
          rcases h3 : fn 3 with v3 | e3
          · exact Or.inl ⟨v3, rfl, by simp [ddgsTrace, hr, withDdgsGo, h1, h2, h3]⟩
          · rcases e3 with m | m3 | c | m
            · exact Or.inr (Or.inl ⟨_, rfl, (fun m2 h => by cases h),
                by simp [ddgsTrace, hr, withDdgsGo, h1, h2, h3]⟩)
            · exact Or.inr (Or.inr ⟨m3, rfl,
                by simp [ddgsTrace, hr, withDdgsGo, h1, h2, h3]⟩)
            · exact Or.inr (Or.inl ⟨_, rfl, (fun m2 h => by cases h),
                by simp [ddgsTrace, hr, withDdgsGo, h1, h2, h3]⟩)
            · exact Or.inr (Or.inl ⟨_, rfl, (fun m2 h => by cases h),
                by simp [ddgsTrace, hr, withDdgsGo, h1, h2, h3]⟩)
        · exact Or.inr (Or.inl ⟨_, rfl, (fun m2 h => by cases h),
            by simp [ddgsTrace, hr, withDdgsGo, h1, h2]⟩)
        · exact Or.inr (Or.inl ⟨_, rfl, (fun m2 h => by cases h),
            by simp [ddgsTrace, hr, withDdgsGo, h1, h2]⟩)
    · exact Or.inr (Or.inl ⟨_, rfl, (fun m2 h => by cases h),
        by simp [ddgsTrace, hr, withDdgsGo, h1]⟩)
    · exact Or.inr (Or.inl ⟨_, rfl, (fun m2 h => by cases h),
        by simp [ddgsTrace, hr, withDdgsGo, h1]⟩)

theorem ddgsTrace_ok {α : Type} (fn : Nat → DdgsAttempt α) (v : α)
    (h : (ddgsTrace fn).result = some (.ok v)) :
    fn 1 = .ok v ∨ fn 2 = .ok v ∨ fn 3 = .ok v := by
  rcases ddgsTrace_shape fn with ⟨w, hw, ht⟩ | ⟨e, he, hne, ht⟩ |
    ⟨m₁, h1, ⟨w, hw, ht⟩ | ⟨e, he, hne, ht⟩ |
      ⟨m₂, h2, ⟨w, hw, ht⟩ | ⟨e, he, hne, ht⟩ | ⟨m₃, h3, ht⟩⟩⟩ <;>
    rw [ht] at h <;> simp at h
  · exact Or.inl (h ▸ hw)
  · exact Or.inr (Or.inl (h ▸ hw))
  · exact Or.inr (Or.inr (h ▸ hw))

theorem search_text_primp_hit (cfg : Config) (o : TierOracles) (n : Nat) (env : Env)
    (l : List SearchResult) (hp : primpTier o.decode o.primp n = some l) :
    _search_text cfg o n env = ⟨[.primp], .ok (some l), env⟩ := by
  simp [_search_text, hp]

theorem search_text_no_browser (cfg : Config) (o : TierOracles) (n : Nat) (env : Env)
    (hp : primpTier o.decode o.primp n = none) (hb : cfg.use_browser = false) :
    _search_text cfg o n env = searchTextFrom2 cfg o n [.primp] env := by
  simp [_search_text, hp, hb]

theorem search_text_browser_hit (cfg : Config) (o : TierOracles) (n : Nat) (env : Env)
    (l : List SearchResult) (hp : primpTier o.decode o.primp n = none)
    (hb : cfg.use_browser = true)
    (hbr : browserResult o.decode o.creation o.page = .ok l) :
    _search_text cfg o n env = ⟨[.primp, .browser], .ok (some l), env⟩ := by
  simp [_search_text, hp, hb, browser_search_eq, hbr]

theorem search_text_browser_caught (cfg : Config) (o : TierOracles) (n : Nat) (env : Env)
    (m : String) (hp : primpTier o.decode o.primp n = none)
    (hb : cfg.use_browser = true)
    (hbr : browserResult o.decode o.creation o.page = .error (.webDriver m)) :
    _search_text cfg o n env = searchTextFrom2 cfg o n [.primp, .browser] env := by
  simp [_search_text, hp, hb, browser_search_eq, hbr]

theorem search_text_browser_raise (cfg : Config) (o : TierOracles) (n : Nat) (env : Env)
    (e : Exc) (hp : primpTier o.decode o.primp n = none)
    (hb : cfg.use_browser = true)
    (hbr : browserResult o.decode o.creation o.page = .error e)
    (hne : ∀ m, e ≠ .webDriver m) :
    _search_text cfg o n env = ⟨[.primp, .browser], .error e, env⟩ := by
  rcases e with m | m | c | m
  · exact absurd rfl (hne m)
  · simp [_search_text, hp, hb, browser_search_eq, hbr]
  · simp [_search_text, hp, hb, browser_search_eq, hbr]
  · simp [_search_text, hp, hb, browser_search_eq, hbr]

theorem from2_ddgs_hit (cfg : Config) (o : TierOracles) (n : Nat)
    (att : List Tier) (env : Env) (v : List SearchResult)
    (hd : (ddgsTrace o.ddgs).result = some (.ok v)) :
    searchTextFrom2 cfg o n att env
      = ⟨att ++ [.ddgs], .ok (some v),
          (_with_ddgs cfg.proxy cfg.headers o.ddgs env).env⟩ := by
  simp [searchTextFrom2, with_ddgs_trace, hd]

theorem from2_ddgs_raise (cfg : Config) (o : TierOracles) (n : Nat)
    (att : List Tier) (env : Env) (e : Exc)
    (hd : (ddgsTrace o.ddgs).result = some (.error e))
    (hne : ∀ m, e ≠ .ddgsExc m) :
    searchTextFrom2 cfg o n att env
      = ⟨att ++ [.ddgs], .error e,
          (_with_ddgs cfg.proxy cfg.headers o.ddgs env).env⟩ := by
  rcases e with m | m | c | m
  · simp [searchTextFrom2, with_ddgs_trace, hd]
  · exact absurd rfl (hne m)
  · simp [searchTextFrom2, with_ddgs_trace, hd]
  · simp [searchTextFrom2, with_ddgs_trace, hd]

theorem from2_scrape_ok (cfg : Config) (o : TierOracles) (n : Nat)
    (att : List Tier) (env : Env) (m : String) (l : List SearchResult)
    (hd : (ddgsTrace o.ddgs).result = some (.error (.ddgsExc m)))
    (hs : _requests_scrape o.scrape n = .ok l) :
    searchTextFrom2 cfg o n att env
      = ⟨att ++ [.ddgs, .scrape], .ok (some l),
          (_with_ddgs cfg.proxy cfg.headers o.ddgs env).env⟩ := by
  simp [searchTextFrom2, with_ddgs_trace, hd, hs]

theorem from2_scrape_raise (cfg : Config) (o : TierOracles) (n : Nat)
    (att : List Tier) (env : Env) (m : String) (e : Exc)
    (hd : (ddgsTrace o.ddgs).result = some (.error (.ddgsExc m)))
    (hs : _requests_scrape o.scrape n = .error e) :
    searchTextFrom2 cfg o n att env
      = ⟨att ++ [.ddgs, .scrape], .error e,
          (_with_ddgs cfg.proxy cfg.headers o.ddgs env).env⟩ := by
  simp [searchTextFrom2, with_ddgs_trace, hd, hs]

theorem ddgsTrace_result_ne_none {α : Type} (fn : Nat → DdgsAttempt α) :
    (ddgsTrace fn).result ≠ none := by
  rcases ddgsTrace_shape fn with ⟨w, hw, ht⟩ | ⟨e, he, hne, ht⟩ |
    ⟨m₁, h1, ⟨w, hw, ht⟩ | ⟨e, he, hne, ht⟩ |
      ⟨m₂, h2, ⟨w, hw, ht⟩ | ⟨e, he, hne, ht⟩ | ⟨m₃, h3, ht⟩⟩⟩ <;>
    simp [ht]

theorem getLast?_append_singleton {α : Type} (l : List α) (a : α) :
    (l ++ [a]).getLast? = some a :=
  List.getLast?_concat l

theorem browserResult_ok (decode : String → String) (c : DriverOutcome)
    (pg : PageOutcome) (l : List SearchResult)
    (h : browserResult decode c pg = .ok l) :
    ∃ links snips, pg = .page links snips
      ∧ l = browserExtract decode links snips INTERNAL_MAX_RETURN := by
  rcases c with _ | e
  · rcases pg with e | ⟨links, snips⟩
    · cases h
    · refine ⟨links, snips, rfl, ?_⟩
      cases h
      rfl
  · cases h

theorem from2_congr (cfg : Config) (o o2 : TierOracles) (n : Nat)
    (att : List Tier) (env : Env) (hd : o.ddgs = o2.ddgs) (hs : o.scrape = o2.scrape) :
    searchTextFrom2 cfg o n att env = searchTextFrom2 cfg o2 n att env := by
  unfold searchTextFrom2
  rw [hd, hs]

theorem from2_claim1 (cfg : Config) (o : TierOracles) (n : Nat) (env : Env)
    (att : List Tier) (border : List Tier)
    (hpre : att ++ [Tier.ddgs] = border.take (att.length + 1))
    (hpre2 : att ++ [Tier.ddgs, Tier.scrape] = border.take (att.length + 2)) :
    ((searchTextFrom2 cfg o n att env).attempts
        = border.take (searchTextFrom2 cfg o n att env).attempts.length)
  ∧ (∀ l, (searchTextFrom2 cfg o n att env).result = .ok (some l) →
      ∃ t, (searchTextFrom2 cfg o n att env).attempts.getLast? = some t
        ∧ tierStandalone o n t = some l) := by
  rcases hres : (ddgsTrace o.ddgs).result with _ | r
  · exact absurd hres (ddgsTrace_result_ne_none o.ddgs)
  · rcases r with e | v
    swap
    · rw [from2_ddgs_hit cfg o n att env v hres]
      refine ⟨by simpa using hpre, ?_⟩
      intro l hl
      simp at hl
      subst hl
      exact ⟨.ddgs, getLast?_append_singleton att .ddgs, by simp [tierStandalone, hres]⟩
    · rcases e with m | m | c | m
      · rw [from2_ddgs_raise cfg o n att env _ hres (fun m2 h => by cases h)]
        exact ⟨by simpa using hpre, fun l hl => by simp at hl⟩
      · rcases hs : _requests_scrape o.scrape n with e2 | l2
        · rw [from2_scrape_raise cfg o n att env m e2 hres hs]
          exact ⟨by simpa using hpre2, fun l hl => by simp at hl⟩
        · rw [from2_scrape_ok cfg o n att env m l2 hres hs]
          refine ⟨by simpa using hpre2, ?_⟩
          intro l hl
          simp at hl
          subst hl
          refine ⟨.scrape, ?_, by simp [tierStandalone, hs, Except.toOption]⟩
          rw [show att ++ [Tier.ddgs, Tier.scrape]
              = (att ++ [Tier.ddgs]) ++ [Tier.scrape] by simp]
          exact getLast?_append_singleton _ _
      · rw [from2_ddgs_raise cfg o n att env _ hres (fun m2 h => by cases h)]
        exact ⟨by simpa using hpre, fun l hl => by simp at hl⟩
      · rw [from2_ddgs_raise cfg o n att env _ hres (fun m2 h => by cases h)]
        exact ⟨by simpa using hpre, fun l hl => by simp at hl⟩

theorem from2_ids (cfg : Config) (o : TierOracles) (n : Nat) (env : Env)
    (att : List Tier)
    (hddgs : ∀ i v, o.ddgs i = .ok v → idsContiguous v) :
    ∀ l, (searchTextFrom2 cfg o n att env).result = .ok (some l) → idsContiguous l := by
  intro l hl
  rcases hres : (ddgsTrace o.ddgs).result with _ | r
  · exact absurd hres (ddgsTrace_result_ne_none o.ddgs)
  · rcases r with e | v
    swap
    · rw [from2_ddgs_hit cfg o n att env v hres] at hl
      simp at hl
      subst hl
      rcases ddgsTrace_ok o.ddgs v hres with h | h | h
      · exact hddgs 1 v h
      · exact hddgs 2 v h
      · exact hddgs 3 v h
    · rcases e with m | m | c | m
      · rw [from2_ddgs_raise cfg o n att env _ hres (fun m2 h => by cases h)] at hl
        simp at hl
      · rcases hs : _requests_scrape o.scrape n with e2 | l2
        · rw [from2_scrape_raise cfg o n att env m e2 hres hs] at hl
          simp at hl
        · rw [from2_scrape_ok cfg o n att env m l2 hres hs] at hl
          simp at hl
          subst hl
          exact scrape_ids o.scrape n l2 hs
      · rw [from2_ddgs_raise cfg o n att env _ hres (fun m2 h => by cases h)] at hl
        simp at hl
      · rw [from2_ddgs_raise cfg o n att env _ hres (fun m2 h => by cases h)] at hl
        simp at hl

-- ────────────────────────────────────────────────────────────────────
-- Claim theorems
-- ────────────────────────────────────────────────────────────────────

/-- C3: the ddgs tier's `_with_ddgs` makes at most 3 attempts on its
tier-specific exception class (`DDGSException`), sleeping between attempts
with delays starting at 0.01 and multiplied by 1.5 after each failure (so the
delays strictly increase), and re-raises the underlying failure after the
third failed attempt. -/
theorem with_ddgs_retry_policy {α : Type} (fn : Nat → DdgsAttempt α) :
    (ddgsTrace fn).attemptsMade.length ≤ 3
  ∧ (ddgsTrace fn).attemptsMade
      = (List.range' 1 3).take (ddgsTrace fn).attemptsMade.length
  ∧ ((ddgsTrace fn).sleeps = [] ∨ (ddgsTrace fn).sleeps = [(0.01 : ℚ)]
      ∨ (ddgsTrace fn).sleeps = [(0.01 : ℚ), (0.01 : ℚ) * 1.5])
  ∧ List.Chain' (fun a b => a < b) (ddgsTrace fn).sleeps
  ∧ (∀ m₁ m₂ m₃, fn 1 = .raise (.ddgsExc m₁) → fn 2 = .raise (.ddgsExc m₂) →
      fn 3 = .raise (.ddgsExc m₃) →
      (ddgsTrace fn).result = some (.error (.ddgsExc m₃))
        ∧ (ddgsTrace fn).sleeps = [(0.01 : ℚ), (0.01 : ℚ) * 1.5]) := by
  rcases ddgsTrace_shape fn with ⟨w, hw, ht⟩ | ⟨e, he, hne, ht⟩ |
    ⟨ma, h1, ⟨w, hw, ht⟩ | ⟨e, he, hne, ht⟩ |
      ⟨mb, h2, ⟨w, hw, ht⟩ | ⟨e, he, hne, ht⟩ | ⟨mc, h3, ht⟩⟩⟩ <;>
    rw [ht] <;>
    refine ⟨by norm_num, by rfl, by norm_num, by norm_num, ?_⟩ <;>
    intro m₁ m₂ m₃ hm1 hm2 hm3
  · rw [hw] at hm1; cases hm1
  · rw [he] at hm1; cases hm1; exact absurd rfl (hne m₁)
  · rw [hw] at hm2; cases hm2
  · rw [he] at hm2; cases hm2; exact absurd rfl (hne m₂)
  · rw [hw] at hm3; cases hm3
  · rw [he] at hm3; cases hm3; exact absurd rfl (hne m₃)
  · rw [h3] at hm3; cases hm3; exact ⟨rfl, rfl⟩

theorem with_ddgs_retry_policy_witness :
    (ddgsTrace fnW3).attemptsMade.length ≤ 3
  ∧ (ddgsTrace fnW3).result = some (.error (.ddgsExc "Ratelimit"))
  ∧ (ddgsTrace fnW3).sleeps = [(0.01 : ℚ), (0.01 : ℚ) * 1.5] :=
  ⟨(with_ddgs_retry_policy fnW3).1,
   ((with_ddgs_retry_policy fnW3).2.2.2.2 "Ratelimit" "Ratelimit" "Ratelimit"
      rfl rfl rfl).1,
   ((with_ddgs_retry_policy fnW3).2.2.2.2 "Ratelimit" "Ratelimit" "Ratelimit"
      rfl rfl rfl).2⟩

/-- C6: if `bypass_proxy_for_driver` is true and `HTTP_PROXY` / `HTTPS_PROXY`
were set before a `_new_driver` call, then after the call completes — whether
driver creation succeeded or raised — both variables hold their original
values again. -/
theorem new_driver_restores_proxy_env (proxy : Option String) (headless : Bool)
    (creation : DriverOutcome) (env : Env) (v w : String)
    (hv : env.httpProxy = some v) (hw : env.httpsProxy = some w) :
    (_new_driver proxy headless true creation env).2.httpProxy = some v
  ∧ (_new_driver proxy headless true creation env).2.httpsProxy = some w := by
  cases creation <;> simp [_new_driver, restoreEnv, hv, hw]

theorem new_driver_restores_proxy_env_witness :
    envP.httpProxy = some "http://proxy.local:3128"
  ∧ envP.httpsProxy = some "http://proxy.local:3129"
  ∧ (_new_driver none true true (.raise (.webDriver "driver download failed")) envP).2.httpProxy
      = some "http://proxy.local:3128"
  ∧ (_new_driver none true true (.raise (.webDriver "driver download failed")) envP).2.httpsProxy
      = some "http://proxy.local:3129"
  ∧ (_new_driver none true true .ok envP).2 = envP :=
  ⟨rfl, rfl,
   (new_driver_restores_proxy_env none true
      (.raise (.webDriver "driver download failed")) envP _ _ rfl rfl).1,
   (new_driver_restores_proxy_env none true
      (.raise (.webDriver "driver download failed")) envP _ _ rfl rfl).2,
   by rfl⟩

/-- C7: `_with_ddgs` exports the proxy to `HTTP_PROXY` / `HTTPS_PROXY` with
set-if-absent semantics: a call made while a pre-existing value is set leaves
that value unchanged afterwards, never overwriting it. -/
theorem with_ddgs_proxy_setdefault {α : Type} (proxy : Option String)
    (headers : Option (List (String × String))) (fn : Nat → DdgsAttempt α)
    (env : Env) :
    (∀ v, env.httpProxy = some v →
      (_with_ddgs proxy headers fn env).env.httpProxy = some v)
  ∧ (∀ w, env.httpsProxy = some w →
      (_with_ddgs proxy headers fn env).env.httpsProxy = some w) := by
  rcases env with ⟨hp, hps⟩
  constructor
  · intro v hv
    cases proxy <;> cases hp <;> cases hps <;>
      simp_all [_with_ddgs, Env.setdefaultHttp, Env.setdefaultHttps]
  · intro w hw
    cases proxy <;> cases hp <;> cases hps <;>
      simp_all [_with_ddgs, Env.setdefaultHttp, Env.setdefaultHttps]

theorem with_ddgs_proxy_setdefault_witness :
    envP.httpProxy = some "http://proxy.local:3128"
  ∧ (_with_ddgs (some "http://other:9999") none fnW7 envP).env.httpProxy
      = some "http://proxy.local:3128"
  ∧ (_with_ddgs none none fnW7 envP).env.httpProxy
      = some "http://proxy.local:3128" :=
  ⟨rfl,
   (with_ddgs_proxy_setdefault (some "http://other:9999") none fnW7 envP).1 _ rfl,
   (with_ddgs_proxy_setdefault none none fnW7 envP).1 _ rfl⟩

/-- C9 (code bug): the `headless` option is supposed to determine browser
visibility, but `_new_driver` adds `--headless` to the options
unconditionally (line 94) and never consults the `headless` parameter, so the
browser launches headless even at the failing input `headless = False`. -/
theorem driver_always_headless :
    "--headless" ∈ (driverOpts none false).args
  ∧ "--headless" ∈ (driverOpts (some "http://proxy.local:3128") false).args
  ∧ driverOpts none false = driverOpts none true := by
  refine ⟨?_, ?_, rfl⟩ <;> simp [driverOpts]

/-- C10: in the PRIMP tier a falsy (zero) `max_results` is replaced by
`INTERNAL_MAX_RETURN = 10`, so a request asking for zero results can still
return up to 10 entries rather than an empty list. -/
theorem primp_falsy_max_results (decode : String → String) :
    primpLimit 0 = INTERNAL_MAX_RETURN ∧ INTERNAL_MAX_RETURN = 10
  ∧ (∀ o : PrimpOutcome, primpTier decode o 0 = primpTier decode o INTERNAL_MAX_RETURN)
  ∧ (∀ status text links snips, 200 ≤ status → status < 300 → text ≠ "" →
      10 ≤ links.length →
      ∃ l, primpTier decode (.resp status text links snips) 0 = some l
        ∧ l.length = 10) := by
  refine ⟨rfl, rfl, ?_, ?_⟩
  · intro o
    rcases o with e | ⟨status, text, links, snips⟩ <;> rfl
  · intro status text links snips h1 h2 h3 h4
    have hlen : (primpExtract decode links snips (primpLimit 0)).length = 10 := by
      simp [primpExtract, primpLimit, INTERNAL_MAX_RETURN, List.length_take]
      omega
    have hne : primpExtract decode links snips (primpLimit 0) ≠ [] := by
      intro h
      rw [h] at hlen
      simp at hlen
    refine ⟨primpExtract decode links snips (primpLimit 0), ?_, hlen⟩
    simp only [primpTier]
    rw [if_pos ⟨h1, h2, h3⟩, if_neg hne]

theorem primp_falsy_max_results_witness :
    ((primpTier decodeId (.resp 200 "<html>" anchors12 []) 0).getD []).length = 10 := by
  obtain ⟨l, hl, hlen⟩ :=
    (primp_falsy_max_results decodeId).2.2.2 200 "<html>" anchors12 []
      (by norm_num) (by norm_num) (by simp) (by simp [anchors12])
  rw [hl]
  simpa using hlen

/-- C1: `_search_text` attempts the tiers in the fixed order — PRIMP
impersonated-HTTP first, the real-browser tier only when `use_browser` is
set, then the ddgs engine-API client, then the plain scrape; the attempted
tiers always form a prefix of that order, the first tier that succeeds is the
last one attempted, and the returned list is exactly that single tier's own
output (never a merge of entries from more than one tier). -/
theorem search_text_tier_order (cfg : Config) (o : TierOracles) (n : Nat) (env : Env) :
    ((_search_text cfg o n env).attempts
        = (tierOrder cfg.use_browser).take (_search_text cfg o n env).attempts.length)
  ∧ (∀ l, (_search_text cfg o n env).result = .ok (some l) →
      ∃ t, (_search_text cfg o n env).attempts.getLast? = some t
        ∧ tierStandalone o n t = some l) := by
  rcases hp : primpTier o.decode o.primp n with _ | l0
  · rcases hb : cfg.use_browser
    · rw [search_text_no_browser cfg o n env hp hb]
      exact from2_claim1 cfg o n env [.primp] (tierOrder false) (by decide) (by decide)
    · rcases hbr : browserResult o.decode o.creation o.page with e | lb
      · rcases e with m | m | c | m
        · rw [search_text_browser_caught cfg o n env m hp hb hbr]
          exact from2_claim1 cfg o n env [.primp, .browser] (tierOrder true)
            (by decide) (by decide)
        · rw [search_text_browser_raise cfg o n env _ hp hb hbr
              (fun m2 h => by cases h)]
          exact ⟨by simp [tierOrder], fun l hl => by simp at hl⟩
        · rw [search_text_browser_raise cfg o n env _ hp hb hbr
              (fun m2 h => by cases h)]
          exact ⟨by simp [tierOrder], fun l hl => by simp at hl⟩
        · rw [search_text_browser_raise cfg o n env _ hp hb hbr
              (fun m2 h => by cases h)]
          exact ⟨by simp [tierOrder], fun l hl => by simp at hl⟩
      · rw [search_text_browser_hit cfg o n env lb hp hb hbr]
        refine ⟨by simp [tierOrder], ?_⟩
        intro l hl
        simp at hl
        subst hl
        exact ⟨.browser, by simp, by simp [tierStandalone, hbr, Except.toOption]⟩
  · rw [search_text_primp_hit cfg o n env l0 hp]
    refine ⟨?_, ?_⟩
    · rcases hb : cfg.use_browser <;> simp [tierOrder]
    · intro l hl
      simp at hl
      subst hl
      exact ⟨.primp, by simp, by simp [tierStandalone, hp]⟩

theorem search_text_tier_order_witness :
    ((_search_text cfgNoBrowser oW1 5 env0).attempts
        = (tierOrder cfgNoBrowser.use_browser).take
            (_search_text cfgNoBrowser oW1 5 env0).attempts.length)
  ∧ (∃ t, (_search_text cfgNoBrowser oW1 5 env0).attempts.getLast? = some t
      ∧ tierStandalone oW1 5 t = some lW1) :=
  ⟨(search_text_tier_order cfgNoBrowser oW1 5 env0).1,
   (search_text_tier_order cfgNoBrowser oW1 5 env0).2 lW1 (by rfl)⟩

/-- C5: in every successful result list — from any tier that builds its own
entries (PRIMP, browser, scrape), and from the ddgs tier provided the
external `ddgs` client honours its documented schema — the `id` fields are
exactly the contiguous sequence `1, 2, ..., L` in order. -/
theorem results_ids_contiguous (cfg : Config) (o : TierOracles) (n : Nat) (env : Env)
    (hddgs : ∀ i v, o.ddgs i = .ok v → idsContiguous v) :
    ∀ l, (_search_text cfg o n env).result = .ok (some l) → idsContiguous l := by
  intro l hl
  rcases hp : primpTier o.decode o.primp n with _ | l0
  · rcases hb : cfg.use_browser
    · rw [search_text_no_browser cfg o n env hp hb] at hl
      exact from2_ids cfg o n env [.primp] hddgs l hl
    · rcases hbr : browserResult o.decode o.creation o.page with e | lb
      · rcases e with m | m | c | m
        · rw [search_text_browser_caught cfg o n env m hp hb hbr] at hl
          exact from2_ids cfg o n env [.primp, .browser] hddgs l hl
        · rw [search_text_browser_raise cfg o n env _ hp hb hbr
              (fun m2 h => by cases h)] at hl
          simp at hl
        · rw [search_text_browser_raise cfg o n env _ hp hb hbr
              (fun m2 h => by cases h)] at hl
          simp at hl
        · rw [search_text_browser_raise cfg o n env _ hp hb hbr
              (fun m2 h => by cases h)] at hl
          simp at hl
      · rw [search_text_browser_hit cfg o n env lb hp hb hbr] at hl
        simp at hl
        subst hl
        obtain ⟨links, snips, hpg, hlb⟩ :=
          browserResult_ok o.decode o.creation o.page lb hbr
        rw [hlb]
        exact browserExtract_ids o.decode links snips INTERNAL_MAX_RETURN
  · rw [search_text_primp_hit cfg o n env l0 hp] at hl
    simp at hl
    subst hl
    obtain ⟨status, text, links, snips, ho, hl0⟩ :=
      primpTier_some o.decode o.primp n l0 hp
    rw [hl0]
    exact primpExtract_ids o.decode links snips (primpLimit n)

theorem results_ids_contiguous_witness :
    (_search_text cfgNoBrowser oW5 5 env0).result = .ok (some lW5)
  ∧ idsContiguous lW5 :=
  ⟨by rfl,
   results_ids_contiguous cfgNoBrowser oW5 5 env0
     (fun i v h => by simp [oW5] at h) lW5 (by rfl)⟩

/-- C4: for `max_results = n > 0` the PRIMP tier and the scrape tier return
at most `n` entries; the ddgs tier passes through the external client's
records, so it returns at most `n` whenever the client honours its
`max_results` contract; the real-browser tier deviates as documented — it
ignores the caller-provided `max_results` entirely (its output is invariant
in it) and always caps its output at the fixed `INTERNAL_MAX_RETURN = 10`. -/
theorem tiers_respect_cap (o : TierOracles) (n : Nat) (hn : 0 < n) :
    (∀ l, primpTier o.decode o.primp n = some l → l.length ≤ n)
  ∧ (∀ l, (∀ i v, o.ddgs i = .ok v → v.length ≤ n) →
      (ddgsTrace o.ddgs).result = some (.ok l) → l.length ≤ n)
  ∧ (∀ l, _requests_scrape o.scrape n = .ok l → l.length ≤ n)
  ∧ (∀ links snips,
      (browserExtract o.decode links snips INTERNAL_MAX_RETURN).length
        ≤ INTERNAL_MAX_RETURN)
  ∧ (∀ proxy hl bp n2 env,
      _browser_search o.decode proxy hl bp o.creation o.page n env
        = _browser_search o.decode proxy hl bp o.creation o.page n2 env) := by
  refine ⟨?_, ?_, ?_, ?_, ?_⟩
  · intro l hl
    obtain ⟨status, text, links, snips, ho, hl0⟩ :=
      primpTier_some o.decode o.primp n l hl
    rw [hl0]
    have hlim : primpLimit n = n := by
      unfold primpLimit
      rw [if_neg (Nat.pos_iff_ne_zero.mp hn)]
    simp [primpExtract, List.length_take, hlim]
  · intro l hcap hres
    rcases ddgsTrace_ok o.ddgs l hres with h | h | h
    · exact hcap 1 l h
    · exact hcap 2 l h
    · exact hcap 3 l h
  · intro l hl
    unfold _requests_scrape at hl
    rcases hs : raise_for_status o.scrape.status with _ | e <;> rw [hs] at hl
    · cases hl
      simp [List.length_take]
    · cases hl
  · intro links snips
    simp [browserExtract, List.length_take]
  · intro proxy hl bp n2 env
    rfl

theorem tiers_respect_cap_witness :
    0 < 2
  ∧ _requests_scrape oW4.scrape 2 = .ok lW4
  ∧ lW4.length ≤ 2
  ∧ (browserExtract oW4.decode anchors3 [] INTERNAL_MAX_RETURN).length
      ≤ INTERNAL_MAX_RETURN :=
  ⟨by decide, by rfl,
   (tiers_respect_cap oW4 2 (by decide)).2.2.1 lW4 (by rfl),
   (tiers_respect_cap oW4 2 (by decide)).2.2.2.1 anchors3 []⟩

/-- C2 counterexample: the claim says every tier catches only its own
tier-specific exception classes and that, in particular, the
impersonated-HTTP tier does not silently absorb arbitrary exceptions.  The
PRIMP tier's blanket `except Exception` (line 336) refutes this: a
`ValueError`-like exception raised inside that tier is swallowed and the
dispatcher returns the ddgs tier's result instead of propagating it. -/
theorem primp_blanket_catch_counterexample :
    oW2.primp = .raise (.other "ValueError")
  ∧ (_search_text cfgNoBrowser oW2 5 env0).result = .ok (some recsW2)
  ∧ (_search_text cfgNoBrowser oW2 5 env0).result ≠ .error (.other "ValueError") := by
  refine ⟨rfl, by rfl, ?_⟩
  intro h
  rw [show (_search_text cfgNoBrowser oW2 5 env0).result = .ok (some recsW2)
      from by rfl] at h
  cases h

/-- C2 amended: the real-browser tier catches only `WebDriverException` and
the ddgs tier only `DDGSException` — any other exception raised inside those
tiers propagates to the caller; the impersonated-HTTP (PRIMP) tier, however,
catches every exception: a raise inside it is indistinguishable from an
empty fall-through. -/
theorem tier_exception_policy (cfg : Config) (o : TierOracles) (n : Nat) (env : Env) :
    (∀ e, o.primp = .raise e →
      _search_text cfg o n env
        = _search_text cfg { o with primp := .resp 500 "" [] [] } n env)
  ∧ (∀ e, cfg.use_browser = true → primpTier o.decode o.primp n = none →
      browserResult o.decode o.creation o.page = .error e →
      (∀ m, e ≠ .webDriver m) →
      (_search_text cfg o n env).result = .error e)
  ∧ (∀ e, cfg.use_browser = false → primpTier o.decode o.primp n = none →
      (ddgsTrace o.ddgs).result = some (.error e) → (∀ m, e ≠ .ddgsExc m) →
      (_search_text cfg o n env).result = .error e) := by
  refine ⟨?_, ?_, ?_⟩
  · intro e he
    have hp : primpTier o.decode o.primp n = none := by rw [he]; rfl
    have hp2 : primpTier o.decode (PrimpOutcome.resp 500 "" [] []) n = none := by
      norm_num [primpTier]
    rcases hb : cfg.use_browser
    · rw [search_text_no_browser cfg o n env hp hb,
          search_text_no_browser cfg { o with primp := .resp 500 "" [] [] } n env hp2 hb]
      exact from2_congr cfg o _ n _ env rfl rfl
    · rcases hbr : browserResult o.decode o.creation o.page with e2 | lb
      · rcases e2 with m | m | c | m
        · rw [search_text_browser_caught cfg o n env m hp hb hbr,
              search_text_browser_caught cfg { o with primp := .resp 500 "" [] [] }
                n env m hp2 hb hbr]
          exact from2_congr cfg o _ n _ env rfl rfl
        · rw [search_text_browser_raise cfg o n env _ hp hb hbr
              (fun m2 h => by cases h),
              search_text_browser_raise cfg { o with primp := .resp 500 "" [] [] }
                n env _ hp2 hb hbr (fun m2 h => by cases h)]
        · rw [search_text_browser_raise cfg o n env _ hp hb hbr
              (fun m2 h => by cases h),
              search_text_browser_raise cfg { o with primp := .resp 500 "" [] [] }
                n env _ hp2 hb hbr (fun m2 h => by cases h)]
        · rw [search_text_browser_raise cfg o n env _ hp hb hbr
              (fun m2 h => by cases h),
              search_text_browser_raise cfg { o with primp := .resp 500 "" [] [] }
                n env _ hp2 hb hbr (fun m2 h => by cases h)]
      · rw [search_text_browser_hit cfg o n env lb hp hb hbr,
            search_text_browser_hit cfg { o with primp := .resp 500 "" [] [] }
              n env lb hp2 hb hbr]
  · intro e hb hp hbr hne
    rw [search_text_browser_raise cfg o n env e hp hb hbr hne]
  · intro e hb hp hres hne
    rw [search_text_no_browser cfg o n env hp hb,
        from2_ddgs_raise cfg o n [.primp] env e hres hne]

theorem tier_exception_policy_witness :
    (_search_text cfgNoBrowser oW2 5 env0
        = _search_text cfgNoBrowser { oW2 with primp := .resp 500 "" [] [] } 5 env0)
  ∧ (_search_text cfgBrowser oW2b 5 env0).result = .error (.other "TypeError")
  ∧ (_search_text cfgNoBrowser oW2c 5 env0).result = .error (.other "KeyError") :=
  ⟨(tier_exception_policy cfgNoBrowser oW2 5 env0).1 _ rfl,
   (tier_exception_policy cfgBrowser oW2b 5 env0).2.1 _ rfl rfl rfl
     (fun m h => by cases h),
   (tier_exception_policy cfgNoBrowser oW2c 5 env0).2.2 _ rfl rfl (by rfl)
     (fun m h => by cases h)⟩

/-- C8 counterexample: the claim says the scrape tier raises on any non-2xx
status.  `requests`' `raise_for_status` raises only on 4xx/5xx, so at the
concrete non-2xx status 304 the scrape does not raise: it parses the body
and returns a result list. -/
theorem scrape_status_304_counterexample :
    ¬ (200 ≤ 304 ∧ 304 < 300)
  ∧ raise_for_status 304 = none
  ∧ _requests_scrape ⟨304, [⟨"https://example.com", "Example"⟩]⟩ 5
      = .ok [⟨1, "Example", "https://example.com", ""⟩] := by
  refine ⟨by decide, by rfl, by rfl⟩

/-- C8 amended: the scrape tier issues one POST and raises exactly on 4xx/5xx
status (other non-2xx statuses, such as 304, do not raise and the body is
parsed normally), with no retry; on success it returns at most `max_results`
entries, each with an empty `body`; and, being the last tier, its error
propagates out of `_search_text` when the earlier tiers have fallen
through. -/
theorem requests_scrape_behavior (resp : ScrapeResp) (n : Nat) :
    (400 ≤ resp.status → resp.status < 600 →
      _requests_scrape resp n = .error (.httpStatus resp.status))
  ∧ (raise_for_status resp.status = none →
      ∃ l, _requests_scrape resp n = .ok l ∧ l.length ≤ n
        ∧ ∀ r ∈ l, r.body = "")
  ∧ (∀ cfg o env m e, cfg.use_browser = false →
      primpTier o.decode o.primp n = none →
      (ddgsTrace o.ddgs).result = some (.error (.ddgsExc m)) →
      o.scrape = resp → _requests_scrape resp n = .error e →
      (_search_text cfg o n env).result = .error e) := by
  refine ⟨?_, ?_, ?_⟩
  · intro h4 h6
    unfold _requests_scrape raise_for_status
    rw [if_pos ⟨h4, h6⟩]
  · intro hok
    unfold _requests_scrape
    rw [hok]
    refine ⟨_, rfl, ?_, ?_⟩
    · simp [List.length_take]
    · intro r hr
      simp [List.mem_map] at hr
      obtain ⟨p, a, hmem, heq⟩ := hr
      rw [← heq]
  · intro cfg o env m e hb hp hres hsc hse
    rw [search_text_no_browser cfg o n env hp hb,
        from2_scrape_raise cfg o n [.primp] env m e hres (hsc ▸ hse)]

theorem requests_scrape_behavior_witness :
    _requests_scrape ⟨500, []⟩ 5 = .error (.httpStatus 500)
  ∧ (_search_text cfgNoBrowser oW8 5 env0).result = .error (.httpStatus 500) :=
  ⟨(requests_scrape_behavior ⟨500, []⟩ 5).1 (by decide) (by decide),
   (requests_scrape_behavior ⟨500, []⟩ 5).2.2 cfgNoBrowser oW8 env0 "Ratelimit"
     (.httpStatus 500) rfl rfl (by rfl) rfl (by rfl)⟩
